import Mathlib

/-!
Verification of the `generate_splat.py` wrapper script of SHARP-Viewer.

The script is embedded shallowly: a run is a pure function from an
environment (the argument vector, the filesystem entries visible to the
existence check, the external tool's result, and the output directory's
listing after the tool ran) to the ordered trace of observable events
(JSON prints, the stdout flush, the directory creation, the subprocess
launch, the glob scan, explicit exit calls) together with the process
exit code.  `pathlib.Path.mkdir` is embedded separately, at filesystem
level, for the idempotence properties.
-/

namespace SharpViewer

/-- Kind of a filesystem entry, as far as `Path.exists()` cares. -/
inductive EntryKind where
  | file
  | dir
  | other
deriving DecidableEq, Repr

/-- The environment of one run of the script: everything the script
observes from the outside world. -/
structure Env where
  /-- `sys.argv`, the program name included at index 0. -/
  argv : List String
  /-- The filesystem entries (path and kind) existing when the input
  check runs. -/
  entries : List (String × EntryKind)
  /-- `returncode` of the `sharp` subprocess. -/
  toolReturncode : Int
  /-- Captured standard output of the subprocess (captured, never read). -/
  toolStdout : String
  /-- Captured standard error of the subprocess. -/
  toolStderr : String
  /-- Names in the output directory when the glob runs, in filesystem
  enumeration order. -/
  dirListing : List String
deriving Repr

/-- `Path(p).exists()`: true iff some entry of any kind has path `p`. -/
def pathExists (env : Env) (p : String) : Bool :=
  env.entries.any (fun e => e.1 == p)

/-- The JSON objects the script prints: `{"error": ...}`,
`{"status": "starting", "message": ...}`, or
`{"status": "complete", "output_path": ..., "message": ...}`. -/
inductive Msg where
  | errorMsg (error : String)
  | startingMsg (message : String)
  | completeMsg (output_path : String) (message : String)
deriving DecidableEq, Repr

/-- Observable events of a run, in order. -/
inductive Event where
  | print (m : Msg)
  | flush
  | mkdirP (path : String)
  | runTool (input output : String)
  | scanPly
  | exitCall (code : Nat)
deriving DecidableEq, Repr

/-- The usage string of the script. -/
def usageMsg : String := "Usage: generate_splat.py <input_image> <output_dir>"

/-- `output_dir.glob("*.ply")`: the listing filtered to the names whose
character sequence ends in `.ply`, enumeration order preserved. -/
def globPly (listing : List String) : List String :=
  listing.filter (fun n => List.isSuffixOf ".ply".data n.data)

/-- `str(output_dir / name)`: the full path of an entry of the output
directory. -/
def joinPath (dir name : String) : String := dir ++ "/" ++ name

/-- `sys.argv[i]`, defaulting to the empty string out of range (the
script only reads indices it has checked to exist). -/
def arg (env : Env) (i : Nat) : String := env.argv.getD i ""

/-- Shallow embedding of `main()` of `generate_splat.py`: the event
trace and the process exit code (0 when `main` falls off the end). -/
def pyMain (env : Env) : List Event × Nat :=
  if env.argv.length < 3 then
    ([.print (.errorMsg usageMsg), .exitCall 1], 1)
  else
    let input_image := arg env 1
    let output_dir := arg env 2
    if ¬ pathExists env input_image then
      ([.print (.errorMsg ("Input image not found: " ++ input_image)),
        .exitCall 1], 1)
    else
      let pre : List Event :=
        [.mkdirP output_dir,
         .print (.startingMsg "Loading SHARP model..."),
         .flush,
         .runTool input_image output_dir]
      if env.toolReturncode ≠ 0 then
        (pre ++ [.print (.errorMsg ("SHARP failed: " ++ env.toolStderr)),
                 .exitCall 1], 1)
      else
        match globPly env.dirListing with
        | [] =>
          (pre ++ [.scanPly, .print (.errorMsg "No .ply file generated"),
                   .exitCall 1], 1)
        | f :: _ =>
          (pre ++ [.scanPly,
                   .print (.completeMsg (joinPath output_dir f)
                     "3D splat generated successfully!")], 0)

/-- Errors `os.mkdir` may raise, as seen by `pathlib.Path.mkdir`. -/
inductive MkdirError where
  | fileExists
  | fileNotFound
deriving DecidableEq, Repr

/-- A directory tree: the set of existing directories, each as its list
of path segments (the root `[]` always exists implicitly). -/
abbrev DirFs := List (List String)

/-- `os.mkdir(p)`: fails with `FileExistsError` if `p` exists, with
`FileNotFoundError` if the parent is missing, else records `p`. -/
def osMkdir (fs : DirFs) (p : List String) : Except MkdirError DirFs :=
  if p ∈ fs then .error .fileExists
  else if p.dropLast ≠ [] ∧ p.dropLast ∉ fs then .error .fileNotFound
  else .ok (p :: fs)

/-- `pathlib.Path.mkdir(parents=..., exist_ok=...)`: tries `os.mkdir`;
on `FileNotFoundError` with `parents` set it creates the parent
recursively (with both flags set) and retries; on `FileExistsError`
with `exist_ok` set it is a no-op. -/
def mkdirPath (fs : DirFs) (p : List String) (parents exist_ok : Bool) :
    Except MkdirError DirFs :=
  match osMkdir fs p with
  | .ok fs1 => .ok fs1
  | .error .fileExists => if exist_ok then .ok fs else .error .fileExists
  | .error .fileNotFound =>
    if parents ∧ p ≠ [] then
      match mkdirPath fs p.dropLast true true with
      | .ok fs1 =>
        match osMkdir fs1 p with
        | .ok fs2 => .ok fs2
        | .error .fileExists => if exist_ok then .ok fs1 else .error .fileExists
        | .error .fileNotFound => .error .fileNotFound
      | .error e => .error e
    else .error .fileNotFound
termination_by p.length
decreasing_by
  rename_i h
  have hp : p ≠ [] := h.2
  have : p.dropLast.length < p.length := by
    cases p with
    | nil => exact absurd rfl hp
    | cons a l => simp [List.length_dropLast]
  exact this

/-- The JSON objects printed along a trace, in order. -/
def jsonPrints (t : List Event) : List Msg :=
  t.filterMap (fun e => match e with | .print m => some m | _ => none)

/-- Whether a message is a terminal (final) one: an error or a
completion, not the starting status. -/
def isFinalMsg : Msg → Bool
  | .startingMsg _ => false
  | _ => true

/-! Helper lemmas shared by several results. -/

/-- No input-not-found message coincides with the usage string. -/
lemma input_not_found_ne_usage (s : String) :
    "Input image not found: " ++ s ≠ usageMsg := by
  intro h
  have h2 := congrArg String.data h
  rw [String.data_append] at h2
  have h3 := congrArg List.head? h2
  simp [usageMsg] at h3

/-- No tool-failure message coincides with the usage string. -/
lemma sharp_failed_ne_usage (s : String) :
    "SHARP failed: " ++ s ≠ usageMsg := by
  intro h
  have h2 := congrArg String.data h
  rw [String.data_append] at h2
  have h3 := congrArg List.head? h2
  simp [usageMsg] at h3

/-- With fewer than three `argv` entries the run is the usage-error run. -/
lemma pyMain_few_args (env : Env) (h : env.argv.length < 3) :
    pyMain env =
      ([Event.print (Msg.errorMsg usageMsg), Event.exitCall 1], 1) := by
  simp [pyMain, h]

/-- With enough arguments but a missing input entry the run is the
input-not-found run. -/
lemma pyMain_not_found (env : Env) (h3 : 3 ≤ env.argv.length)
    (hin : pathExists env (arg env 1) = false) :
    pyMain env =
      ([Event.print (Msg.errorMsg
          ("Input image not found: " ++ arg env 1)),
        Event.exitCall 1], 1) := by
  have h : ¬ env.argv.length < 3 := by omega
  simp [pyMain, h, hin]

/-- When validation passes, the trace starts with the directory
creation, the starting print, the flush and the tool launch, in that
order. -/
lemma pyMain_tool_trace (env : Env) (h3 : 3 ≤ env.argv.length)
    (hin : pathExists env (arg env 1) = true) :
    ∃ rest, (pyMain env).1 =
      Event.mkdirP (arg env 2) ::
      Event.print (Msg.startingMsg "Loading SHARP model...") ::
      Event.flush ::
      Event.runTool (arg env 1) (arg env 2) :: rest := by
  have h : ¬ env.argv.length < 3 := by omega
  by_cases hrc : env.toolReturncode = 0
  · cases hply : globPly env.dirListing with
    | nil =>
      exact ⟨[Event.scanPly, Event.print (Msg.errorMsg "No .ply file generated"),
        Event.exitCall 1], by simp [pyMain, h, hin, hrc, hply]⟩
    | cons f fs =>
      exact ⟨[Event.scanPly, Event.print (Msg.completeMsg (joinPath (arg env 2) f)
        "3D splat generated successfully!")], by simp [pyMain, h, hin, hrc, hply]⟩
  · exact ⟨[Event.print (Msg.errorMsg ("SHARP failed: " ++ env.toolStderr)),
      Event.exitCall 1], by simp [pyMain, h, hin, hrc]⟩

/-- Once validation has passed the usage error is never printed. -/
lemma usage_not_printed (env : Env) (h3 : 3 ≤ env.argv.length) :
    Event.print (Msg.errorMsg usageMsg) ∉ (pyMain env).1 := by
  have h : ¬ env.argv.length < 3 := by omega
  have hne1 := input_not_found_ne_usage (arg env 1)
  have hne2 := sharp_failed_ne_usage env.toolStderr
  by_cases hin : pathExists env (arg env 1)
  · by_cases hrc : env.toolReturncode = 0
    · cases hply : globPly env.dirListing with
      | nil => simp [pyMain, h, hin, hrc, hply, usageMsg]
      | cons f fs => simp [pyMain, h, hin, hrc, hply]
    · simp [pyMain, h, hin, hrc, hne2, Ne.symm hne2]
  · rw [pyMain_not_found env h3 (by simpa using hin)]
    simp [hne1, Ne.symm hne1]

/-! Claim theorems. -/

/-- C1: when validation passes, the external tool exits zero and at
least one `*.ply` entry exists in the output directory, the run prints
the starting message followed by exactly one complete message whose
`output_path` is the full path of the first `.ply` entry in enumeration
order and whose message is the fixed success text; the exit code is 0
and no explicit exit call occurs. -/
theorem c1_complete_success (env : Env) (f : String) (fs : List String)
    (hargs : 3 ≤ env.argv.length)
    (hin : pathExists env (arg env 1) = true)
    (hrc : env.toolReturncode = 0)
    (hply : globPly env.dirListing = f :: fs) :
    (pyMain env).2 = 0 ∧
    (∀ c, Event.exitCall c ∉ (pyMain env).1) ∧
    jsonPrints (pyMain env).1 =
      [Msg.startingMsg "Loading SHARP model...",
       Msg.completeMsg (joinPath (arg env 2) f)
         "3D splat generated successfully!"] := by
  have h : ¬ env.argv.length < 3 := by omega
  refine ⟨?_, ?_, ?_⟩
  · simp [pyMain, h, hin, hrc, hply]
  · intro c
    simp [pyMain, h, hin, hrc, hply]
  · simp [pyMain, h, hin, hrc, hply, jsonPrints]

/-- C1 witness: a concrete successful run. -/
theorem c1_witness :
    (pyMain (Env.mk ["generate_splat.py", "photo.jpg", "out"]
      [("photo.jpg", EntryKind.file)] 0 "" "" ["model.ply"])).2 = 0 :=
  (c1_complete_success
    (Env.mk ["generate_splat.py", "photo.jpg", "out"]
      [("photo.jpg", EntryKind.file)] 0 "" "" ["model.ply"])
    "model.ply" [] (by decide) (by decide) rfl (by decide)).1

/-- C2: when the subprocess exits non-zero the final (and only
terminal) JSON object is the single-key error object embedding the
captured stderr behind the label "SHARP failed: ", the exit code is 1
via an explicit exit call, and neither a glob scan nor a complete
message happens. -/
theorem c2_tool_failure (env : Env)
    (hargs : 3 ≤ env.argv.length)
    (hin : pathExists env (arg env 1) = true)
    (hrc : env.toolReturncode ≠ 0) :
    (pyMain env).2 = 1 ∧
    (jsonPrints (pyMain env).1).getLast? =
      some (Msg.errorMsg ("SHARP failed: " ++ env.toolStderr)) ∧
    Event.exitCall 1 ∈ (pyMain env).1 ∧
    Event.scanPly ∉ (pyMain env).1 ∧
    (∀ p m, Msg.completeMsg p m ∉ jsonPrints (pyMain env).1) := by
  have h : ¬ env.argv.length < 3 := by omega
  refine ⟨?_, ?_, ?_, ?_, ?_⟩ <;>
    simp [pyMain, h, hin, hrc, jsonPrints]

/-- C2 witness: a concrete failing-tool run with stderr "boom". -/
theorem c2_witness :
    (jsonPrints (pyMain (Env.mk ["generate_splat.py", "photo.jpg", "out"]
      [("photo.jpg", EntryKind.file)] 1 "" "boom" [])).1).getLast? =
      some (Msg.errorMsg "SHARP failed: boom") :=
  (c2_tool_failure _ (by decide) (by decide) (by decide)).2.1

/-- C3: when the tool exits zero but the glob finds no `.ply` entry,
the final JSON object is exactly the error "No .ply file generated"
and the exit code is 1. -/
theorem c3_no_ply_error (env : Env)
    (hargs : 3 ≤ env.argv.length)
    (hin : pathExists env (arg env 1) = true)
    (hrc : env.toolReturncode = 0)
    (hply : globPly env.dirListing = []) :
    (pyMain env).2 = 1 ∧
    (jsonPrints (pyMain env).1).getLast? =
      some (Msg.errorMsg "No .ply file generated") ∧
    Event.exitCall 1 ∈ (pyMain env).1 := by
  have h : ¬ env.argv.length < 3 := by omega
  refine ⟨?_, ?_, ?_⟩ <;>
    simp [pyMain, h, hin, hrc, hply, jsonPrints]

/-- C3 witness: a concrete run whose output directory has no `.ply`. -/
theorem c3_witness :
    (pyMain (Env.mk ["generate_splat.py", "photo.jpg", "out"]
      [("photo.jpg", EntryKind.file)] 0 "" "" ["log.txt"])).2 = 1 :=
  (c3_no_ply_error
    (Env.mk ["generate_splat.py", "photo.jpg", "out"]
      [("photo.jpg", EntryKind.file)] 0 "" "" ["log.txt"])
    (by decide) (by decide) rfl (by decide)).1

/-- C4: when the input path names no existing entry the whole run is
the input-not-found error print naming the missing path followed by an
exit with status 1 — in particular no directory creation, no starting
message and no subprocess launch. -/
theorem c4_input_not_found (env : Env)
    (hargs : 3 ≤ env.argv.length)
    (hin : pathExists env (arg env 1) = false) :
    pyMain env =
      ([Event.print (Msg.errorMsg
          ("Input image not found: " ++ arg env 1)),
        Event.exitCall 1], 1) :=
  pyMain_not_found env hargs hin

/-- C4 witness: a concrete run with a missing input file. -/
theorem c4_witness :
    pyMain (Env.mk ["generate_splat.py", "ghost.jpg", "out"] [] 0 "" "" []) =
      ([Event.print (Msg.errorMsg "Input image not found: ghost.jpg"),
        Event.exitCall 1], 1) :=
  c4_input_not_found _ (by decide) (by decide)

/-- C5: with fewer than two positional arguments after the program name
the whole run is the usage error print followed by an exit with
status 1. -/
theorem c5_usage_error (env : Env) (hargs : env.argv.length < 3) :
    pyMain env =
      ([Event.print (Msg.errorMsg usageMsg), Event.exitCall 1], 1) :=
  pyMain_few_args env hargs

/-- C5 witness: a concrete run with a single positional argument. -/
theorem c5_witness :
    pyMain (Env.mk ["generate_splat.py", "photo.jpg"] [] 0 "" "" []) =
      ([Event.print (Msg.errorMsg usageMsg), Event.exitCall 1], 1) :=
  c5_usage_error _ (by decide)

/-- C6 counterexample: an invocation with three positional arguments —
a count other than two — is not rejected by the validator: the usage
error is never printed and the run proceeds past validation. -/
theorem c6_counterexample :
    (Env.mk ["generate_splat.py", "a", "b", "c"] [] 0 "" "" []).argv.length
      = 4 ∧
    Event.print (Msg.errorMsg usageMsg) ∉
      (pyMain (Env.mk ["generate_splat.py", "a", "b", "c"] [] 0 "" "" [])).1 := by
  constructor
  · rfl
  · decide

/-- C6 (amended): the validator rejects only invocations with fewer
than two positional values after the program name; the usage
ErrorMessage is printed exactly in that case, so invocations with more
than two positional values pass validation and proceed. -/
theorem c6_usage_iff_few_args (env : Env) :
    Event.print (Msg.errorMsg usageMsg) ∈ (pyMain env).1 ↔
      env.argv.length < 3 := by
  constructor
  · intro hmem
    by_contra hge
    exact usage_not_printed env (by omega) hmem
  · intro hlt
    rw [pyMain_few_args env hlt]
    simp

/-- C6 witness: the amended statement at a one-argument invocation. -/
theorem c6_witness :
    Event.print (Msg.errorMsg usageMsg) ∈
      (pyMain (Env.mk ["generate_splat.py", "x"] [] 0 "" "" [])).1 :=
  (c6_usage_iff_few_args
    (Env.mk ["generate_splat.py", "x"] [] 0 "" "" [])).2 (by decide)

/-- C7: directory preparation is idempotent and total — if the target
directory already exists `mkdir(parents=True, exist_ok=True)` is a
no-op that cannot fail, on any filesystem it succeeds and afterwards
the directory exists — and every run that passes validation performs
the preparation step, whatever happens afterwards. -/
theorem c7_mkdir_idempotent :
    (∀ (fs : DirFs) (p : List String), p ∈ fs →
      mkdirPath fs p true true = .ok fs) ∧
    (∀ (fs : DirFs) (p : List String), ∃ fs1,
      mkdirPath fs p true true = .ok fs1 ∧ p ∈ fs1) ∧
    (∀ env : Env, 3 ≤ env.argv.length → pathExists env (arg env 1) = true →
      Event.mkdirP (arg env 2) ∈ (pyMain env).1) := by
  refine ⟨?_, ?_, ?_⟩
  · intro fs p hp
    rw [mkdirPath]
    simp [osMkdir, hp]
  · intro fs p
    induction p using List.reverseRecOn generalizing fs with
    | nil =>
      by_cases h0 : ([] : List String) ∈ fs
      · exact ⟨fs, by rw [mkdirPath]; simp [osMkdir, h0], h0⟩
      · exact ⟨[] :: fs, by rw [mkdirPath]; simp [osMkdir, h0], by simp⟩
    | append_singleton l a ih =>
      by_cases hp : l ++ [a] ∈ fs
      · exact ⟨fs, by rw [mkdirPath]; simp [osMkdir, hp], hp⟩
      · by_cases hl : ¬l = [] ∧ l ∉ fs
        · obtain ⟨fs1, hfs1, hlmem⟩ := ih fs
          have hos : osMkdir fs (l ++ [a]) = .error .fileNotFound := by
            simp only [osMkdir, List.dropLast_concat]
            rw [if_neg hp, if_pos hl]
          by_cases hp1 : l ++ [a] ∈ fs1
          · have hos1 : osMkdir fs1 (l ++ [a]) = .error .fileExists := by
              simp only [osMkdir]
              rw [if_pos hp1]
            refine ⟨fs1, ?_, hp1⟩
            rw [mkdirPath, hos]
            simp [hfs1, hos1]
          · have hos1 : osMkdir fs1 (l ++ [a]) = .ok ((l ++ [a]) :: fs1) := by
              simp only [osMkdir, List.dropLast_concat]
              rw [if_neg hp1, if_neg (by tauto)]
            refine ⟨(l ++ [a]) :: fs1, ?_, by simp⟩
            rw [mkdirPath, hos]
            simp [hfs1, hos1]
        · have hos : osMkdir fs (l ++ [a]) = .ok ((l ++ [a]) :: fs) := by
            simp only [osMkdir, List.dropLast_concat]
            rw [if_neg hp, if_neg hl]
          refine ⟨(l ++ [a]) :: fs, ?_, by simp⟩
          rw [mkdirPath, hos]
  · intro env h3 hin
    obtain ⟨rest, hrest⟩ := pyMain_tool_trace env h3 hin
    rw [hrest]
    simp

/-- C7 witness: preparing an already existing directory is a no-op. -/
theorem c7_witness :
    mkdirPath [["out"]] ["out"] true true = .ok [["out"]] :=
  c7_mkdir_idempotent.1 [["out"]] ["out"] (by decide)

/-- C8: every run prints exactly one terminal JSON object, it is the
last JSON object printed, and any run that launches the subprocess did
so strictly after printing and flushing a single starting message (the
first four events are the directory creation, the starting print, the
flush and the launch, in that order). -/
theorem c8_single_terminal_message (env : Env) :
    ((jsonPrints (pyMain env).1).filter isFinalMsg).length = 1 ∧
    (∃ m, (jsonPrints (pyMain env).1).getLast? = some m ∧
      isFinalMsg m = true) ∧
    (∀ i o, Event.runTool i o ∈ (pyMain env).1 →
      (pyMain env).1.take 4 =
        [Event.mkdirP (arg env 2),
         Event.print (Msg.startingMsg "Loading SHARP model..."),
         Event.flush,
         Event.runTool (arg env 1) (arg env 2)]) := by
  by_cases h : env.argv.length < 3
  · rw [pyMain_few_args env h]
    refine ⟨by simp [jsonPrints, isFinalMsg], ?_, ?_⟩
    · exact ⟨Msg.errorMsg usageMsg, by simp [jsonPrints], rfl⟩
    · intro i o hmem
      simp at hmem
  · by_cases hin : pathExists env (arg env 1)
    · by_cases hrc : env.toolReturncode = 0
      · cases hply : globPly env.dirListing with
        | nil =>
          refine ⟨?_, ⟨Msg.errorMsg "No .ply file generated", ?_, rfl⟩, ?_⟩ <;>
            simp [pyMain, h, hin, hrc, hply, jsonPrints, isFinalMsg]
        | cons f fs =>
          refine ⟨?_, ⟨Msg.completeMsg (joinPath (arg env 2) f)
            "3D splat generated successfully!", ?_, rfl⟩, ?_⟩ <;>
            simp [pyMain, h, hin, hrc, hply, jsonPrints, isFinalMsg]
      · refine ⟨?_, ⟨Msg.errorMsg ("SHARP failed: " ++ env.toolStderr),
          ?_, rfl⟩, ?_⟩ <;>
          simp [pyMain, h, hin, hrc, jsonPrints, isFinalMsg]
    · rw [pyMain_not_found env (by omega) (by simpa using hin)]
      refine ⟨by simp [jsonPrints, isFinalMsg], ?_, ?_⟩
      · exact ⟨Msg.errorMsg ("Input image not found: " ++ arg env 1),
          by simp [jsonPrints], rfl⟩
      · intro i o hmem
        simp at hmem

/-- C8 witness: the single-terminal-message property at a concrete
successful run. -/
theorem c8_witness :
    ((jsonPrints (pyMain (Env.mk ["generate_splat.py", "photo.jpg", "out"]
      [("photo.jpg", EntryKind.file)] 0 "" "" ["model.ply"])).1).filter
        isFinalMsg).length = 1 :=
  (c8_single_terminal_message _).1

/-- C9: an invocation with more than two positional arguments is not
rejected: the usage error is not printed and the run is identical to
the run on the first two positional arguments alone. -/
theorem c9_extra_args_ignored (env : Env) (hargs : 3 < env.argv.length) :
    Event.print (Msg.errorMsg usageMsg) ∉ (pyMain env).1 ∧
    pyMain env = pyMain { env with argv := env.argv.take 3 } := by
  refine ⟨usage_not_printed env (by omega), ?_⟩
  have e1 : arg { env with argv := env.argv.take 3 } 1 = arg env 1 := by
    simp only [arg, List.getD]
    rw [List.get?_take (by omega : (1 : Nat) < 3)]
  have e2 : arg { env with argv := env.argv.take 3 } 2 = arg env 2 := by
    simp only [arg, List.getD]
    rw [List.get?_take (by omega : (2 : Nat) < 3)]
  have h : ¬ env.argv.length < 3 := by omega
  have h2 : ¬ ({ env with argv := env.argv.take 3 }).argv.length < 3 := by
    simp [List.length_take]
    omega
  simp only [pyMain, h, h2, if_false, e1, e2]
  rfl

/-- C9 witness: a four-argument run equals its truncation to two
positional arguments. -/
theorem c9_witness :
    pyMain (Env.mk ["generate_splat.py", "a", "b", "extra"] [] 0 "" "" []) =
      pyMain (Env.mk ["generate_splat.py", "a", "b"] [] 0 "" "" []) :=
  (c9_extra_args_ignored
    (Env.mk ["generate_splat.py", "a", "b", "extra"] [] 0 "" "" [])
    (by decide)).2

/-- C10: the input check is pure existence — an entry of any kind, a
directory included, passes it, and the run then reaches the subprocess
launch on that path. -/
theorem c10_any_existing_entry (env : Env)
    (hargs : 3 ≤ env.argv.length)
    (hdir : (arg env 1, EntryKind.dir) ∈ env.entries) :
    pathExists env (arg env 1) = true ∧
    Event.runTool (arg env 1) (arg env 2) ∈ (pyMain env).1 := by
  have hpe : pathExists env (arg env 1) = true := by
    simp only [pathExists, List.any_eq_true]
    exact ⟨(arg env 1, EntryKind.dir), hdir, by simp⟩
  refine ⟨hpe, ?_⟩
  obtain ⟨rest, hrest⟩ := pyMain_tool_trace env hargs hpe
  rw [hrest]
  simp

/-- C10 witness: a run whose input argument names a directory reaches
the tool launch. -/
theorem c10_witness :
    Event.runTool "imgs" "out" ∈
      (pyMain (Env.mk ["generate_splat.py", "imgs", "out"]
        [("imgs", EntryKind.dir)] 0 "" "" [])).1 :=
  (c10_any_existing_entry
    (Env.mk ["generate_splat.py", "imgs", "out"]
      [("imgs", EntryKind.dir)] 0 "" "" [])
    (by decide) (by decide)).2

end SharpViewer
